import Mathlib

/-!
Verification development for the DM-i-AI-2024 repository.

The repository has three source files:
* `CT_Inpainting/src/models/model.py` — a U-Net (`UNet.__init__`, `UNet.forward`);
* `Cell_Classification/src/utils.py` — `calculate_custom_score`, `get_model`,
  `save_image_as_tif` and friends;
* `Cell_Classification/api.py` — the FastAPI `/predict` endpoint.

The PyTorch / NumPy / OpenCV / PIL primitives the code delegates to are
embedded at the level of detail that the properties need: tensor *shapes* for
the U-Net wiring (with the exact size/validity rules of the library layers),
parameter lists with attribute paths and `requires_grad` flags for the
torchvision model builder, and integer pixel arithmetic for the TIFF writer.
-/

set_option autoImplicit false

namespace DMiAI

/-! ## Shape-level embedding of the U-Net (CT_Inpainting/src/models/model.py)

A 4-D tensor `batch × channels × height × width` is embedded by its shape.
Each PyTorch layer used by the model becomes a function on shapes that
either produces the output shape or fails exactly where the library layer
would raise at run time.
-/

/-- The shape of a 4-D tensor `batch × channels × height × width`. -/
structure Shape4 where
  batch : Nat
  channels : Nat
  height : Nat
  width : Nat
deriving DecidableEq, Repr

/-- The ways a shape-level forward pass can fail, tagged with where. -/
inductive ShapeError where
  /-- A convolution whose (padded) input is smaller than its kernel. -/
  | kernelTooLarge
  /-- A layer applied to a tensor with the wrong channel count. -/
  | channelMismatch
  /-- A transposed convolution applied to an empty tensor. -/
  | emptyInput
  /-- `MaxPool2d` whose output would be empty; tagged with the pool stage. -/
  | poolTooSmall (stage : Nat)
  /-- `torch.cat` on tensors disagreeing outside the channel dimension;
  tagged with the decoder depth of the concatenation. -/
  | catMismatch (depth : Nat)
deriving DecidableEq, Repr

/-- Sequencing of fallible shape computations (the `Except` bind, written
out so proofs can unfold it step by step). -/
def ebind {ε α β : Type} : Except ε α → (α → Except ε β) → Except ε β
  | Except.error e, _ => Except.error e
  | Except.ok a, f => f a

/-- Shape semantics of `nn.Conv2d(inC, outC, kernel_size=k, padding=p)`
(stride 1): requires the declared input channel count and a padded input at
least as large as the kernel; output spatial size is `h + 2p - k + 1`. -/
def conv2dShape (inC outC k p : Nat) (s : Shape4) : Except ShapeError Shape4 :=
  if s.channels = inC then
    if k ≤ s.height + 2 * p ∧ k ≤ s.width + 2 * p then
      Except.ok ⟨s.batch, outC, s.height + 2 * p + 1 - k, s.width + 2 * p + 1 - k⟩
    else Except.error ShapeError.kernelTooLarge
  else Except.error ShapeError.channelMismatch

/-- Shape semantics of `nn.ReLU` (elementwise, shape preserved). -/
def reluShape (s : Shape4) : Shape4 := s

/-- Shape semantics of `nn.BatchNorm2d(c)` in inference mode: requires the
declared channel count, preserves the shape. -/
def batchNorm2dShape (c : Nat) (s : Shape4) : Except ShapeError Shape4 :=
  if s.channels = c then Except.ok s else Except.error ShapeError.channelMismatch

/-- Shape semantics of `nn.MaxPool2d(kernel_size=2)` (stride 2): spatial
dimensions are halved with flooring; raises when the output would be empty,
i.e. when a spatial dimension is below 2. `stage` records which of the four
pools (`pool0` .. `pool3`) this is. -/
def maxPool2dShape (stage : Nat) (s : Shape4) : Except ShapeError Shape4 :=
  if 2 ≤ s.height ∧ 2 ≤ s.width then
    Except.ok ⟨s.batch, s.channels, s.height / 2, s.width / 2⟩
  else Except.error (ShapeError.poolTooSmall stage)

/-- Shape semantics of `nn.ConvTranspose2d(inC, outC, kernel_size=2, stride=2)`:
doubles both spatial dimensions, requires the declared input channels and a
non-empty input. -/
def convTranspose2dShape (inC outC : Nat) (s : Shape4) : Except ShapeError Shape4 :=
  if s.channels = inC then
    if 1 ≤ s.height ∧ 1 ≤ s.width then
      Except.ok ⟨s.batch, outC, 2 * s.height, 2 * s.width⟩
    else Except.error ShapeError.emptyInput
  else Except.error ShapeError.channelMismatch

/-- Shape semantics of `torch.cat((a, b), dim=1)`: all dimensions other than
the channel dimension must agree; channel counts add. `depth` records the
decoder depth of the concatenation. -/
def catShape (depth : Nat) (a b : Shape4) : Except ShapeError Shape4 :=
  if a.batch = b.batch ∧ a.height = b.height ∧ a.width = b.width then
    Except.ok ⟨a.batch, a.channels + b.channels, a.height, a.width⟩
  else Except.error (ShapeError.catMismatch depth)

/-- Shape semantics of `UNet.conv_block(in_channels, out_channels)`:
Conv2d(3×3, padding 1) → ReLU → BatchNorm2d → Conv2d(3×3, padding 1) →
ReLU → BatchNorm2d. -/
def convBlockShape (inC outC : Nat) (s : Shape4) : Except ShapeError Shape4 :=
  ebind (conv2dShape inC outC 3 1 s) fun s1 =>
  ebind (batchNorm2dShape outC (reluShape s1)) fun s2 =>
  ebind (conv2dShape outC outC 3 1 s2) fun s3 =>
  batchNorm2dShape outC (reluShape s3)

/-- The declared in/out channel widths of one convolutional module. -/
structure ConvSpec where
  inC : Nat
  outC : Nat
deriving DecidableEq, Repr

/-- The modules declared by `UNet.__init__(in_channels=4, out_channels=1)`,
by their in/out channel widths (the pools carry no widths). -/
structure UNetModules where
  enc_conv0 : ConvSpec
  enc_conv1 : ConvSpec
  enc_conv2 : ConvSpec
  enc_conv3 : ConvSpec
  enc_conv4 : ConvSpec
  upconv3 : ConvSpec
  dec_conv3 : ConvSpec
  upconv2 : ConvSpec
  dec_conv2 : ConvSpec
  upconv1 : ConvSpec
  dec_conv1 : ConvSpec
  upconv0 : ConvSpec
  dec_conv0 : ConvSpec
  final_conv : ConvSpec
deriving DecidableEq, Repr

/-- The module widths exactly as `UNet.__init__` declares them. -/
def UNetModules.ofConfig (in_channels out_channels : Nat) : UNetModules where
  enc_conv0 := ⟨in_channels, 64⟩
  enc_conv1 := ⟨64, 128⟩
  enc_conv2 := ⟨128, 256⟩
  enc_conv3 := ⟨256, 512⟩
  enc_conv4 := ⟨512, 1024⟩
  upconv3 := ⟨1024, 512⟩
  dec_conv3 := ⟨1024, 512⟩
  upconv2 := ⟨512, 256⟩
  dec_conv2 := ⟨512, 256⟩
  upconv1 := ⟨256, 128⟩
  dec_conv1 := ⟨256, 128⟩
  upconv0 := ⟨128, 64⟩
  dec_conv0 := ⟨128, 64⟩
  final_conv := ⟨64, out_channels⟩

/-- Shape semantics of `UNet.forward`, following the source line by line:
four conv-block + pool encoder stages, the bottleneck conv block, four
upconv + cat + conv-block decoder stages, and the final 1×1 convolution. -/
def unetForwardShape (in_channels out_channels : Nat) (x : Shape4) :
    Except ShapeError Shape4 :=
  let m := UNetModules.ofConfig in_channels out_channels
  ebind (convBlockShape m.enc_conv0.inC m.enc_conv0.outC x) fun enc0 =>
  ebind (maxPool2dShape 0 enc0) fun enc0_pool =>
  ebind (convBlockShape m.enc_conv1.inC m.enc_conv1.outC enc0_pool) fun enc1 =>
  ebind (maxPool2dShape 1 enc1) fun enc1_pool =>
  ebind (convBlockShape m.enc_conv2.inC m.enc_conv2.outC enc1_pool) fun enc2 =>
  ebind (maxPool2dShape 2 enc2) fun enc2_pool =>
  ebind (convBlockShape m.enc_conv3.inC m.enc_conv3.outC enc2_pool) fun enc3 =>
  ebind (maxPool2dShape 3 enc3) fun enc3_pool =>
  ebind (convBlockShape m.enc_conv4.inC m.enc_conv4.outC enc3_pool) fun bottleneck =>
  ebind (convTranspose2dShape m.upconv3.inC m.upconv3.outC bottleneck) fun dec3u =>
  ebind (catShape 3 dec3u enc3) fun dec3c =>
  ebind (convBlockShape m.dec_conv3.inC m.dec_conv3.outC dec3c) fun dec3 =>
  ebind (convTranspose2dShape m.upconv2.inC m.upconv2.outC dec3) fun dec2u =>
  ebind (catShape 2 dec2u enc2) fun dec2c =>
  ebind (convBlockShape m.dec_conv2.inC m.dec_conv2.outC dec2c) fun dec2 =>
  ebind (convTranspose2dShape m.upconv1.inC m.upconv1.outC dec2) fun dec1u =>
  ebind (catShape 1 dec1u enc1) fun dec1c =>
  ebind (convBlockShape m.dec_conv1.inC m.dec_conv1.outC dec1c) fun dec1 =>
  ebind (convTranspose2dShape m.upconv0.inC m.upconv0.outC dec1) fun dec0u =>
  ebind (catShape 0 dec0u enc0) fun dec0c =>
  ebind (convBlockShape m.dec_conv0.inC m.dec_conv0.outC dec0c) fun dec0 =>
  conv2dShape m.final_conv.inC m.final_conv.outC 1 0 dec0

/-- An error of the shape-level forward pass that is a pooling failure or a
concatenation mismatch (as opposed to a convolution-level failure). -/
def ShapeError.isPoolOrCat : ShapeError → Bool
  | ShapeError.poolTooSmall _ => true
  | ShapeError.catMismatch _ => true
  | _ => false

/-- An error of the shape-level forward pass that is a concatenation
shape-mismatch. -/
def ShapeError.isCat : ShapeError → Bool
  | ShapeError.catMismatch _ => true
  | _ => false

/-! ## Channel-level embedding of `UNet.forward`

For the concatenation-order property the forward pass is embedded one level
deeper: a tensor is its list of channel slices (`List α`, one `α` per
channel), `torch.cat(·, dim=1)` is list append, and every learned module of
the network is an opaque function on channel lists — the property must hold
independently of the weights. -/

/-- The modules of `UNet` as functions on channel lists: one field per
module created in `UNet.__init__` (the pools carry no weights but are
functions on tensors all the same). -/
structure VUNetLayers (α : Type) where
  enc_conv0 : List α → List α
  pool0 : List α → List α
  enc_conv1 : List α → List α
  pool1 : List α → List α
  enc_conv2 : List α → List α
  pool2 : List α → List α
  enc_conv3 : List α → List α
  pool3 : List α → List α
  enc_conv4 : List α → List α
  upconv3 : List α → List α
  dec_conv3 : List α → List α
  upconv2 : List α → List α
  dec_conv2 : List α → List α
  upconv1 : List α → List α
  dec_conv1 : List α → List α
  upconv0 : List α → List α
  dec_conv0 : List α → List α
  final_conv : List α → List α

/-- `torch.cat((a, b), dim=1)` on channel lists: the channels of `a`
followed by the channels of `b`. -/
def torchCat {α : Type} (a b : List α) : List α := a ++ b

namespace VUNet

variable {α : Type}

/-- `enc0 = self.enc_conv0(x)`. -/
def enc0 (L : VUNetLayers α) (x : List α) : List α := L.enc_conv0 x

/-- `enc0_pool = self.pool0(enc0)`. -/
def enc0_pool (L : VUNetLayers α) (x : List α) : List α := L.pool0 (enc0 L x)

/-- `enc1 = self.enc_conv1(enc0_pool)`. -/
def enc1 (L : VUNetLayers α) (x : List α) : List α := L.enc_conv1 (enc0_pool L x)

/-- `enc1_pool = self.pool1(enc1)`. -/
def enc1_pool (L : VUNetLayers α) (x : List α) : List α := L.pool1 (enc1 L x)

/-- `enc2 = self.enc_conv2(enc1_pool)`. -/
def enc2 (L : VUNetLayers α) (x : List α) : List α := L.enc_conv2 (enc1_pool L x)

/-- `enc2_pool = self.pool2(enc2)`. -/
def enc2_pool (L : VUNetLayers α) (x : List α) : List α := L.pool2 (enc2 L x)

/-- `enc3 = self.enc_conv3(enc2_pool)`. -/
def enc3 (L : VUNetLayers α) (x : List α) : List α := L.enc_conv3 (enc2_pool L x)

/-- `enc3_pool = self.pool3(enc3)`. -/
def enc3_pool (L : VUNetLayers α) (x : List α) : List α := L.pool3 (enc3 L x)

/-- `bottleneck = self.enc_conv4(enc3_pool)`. -/
def bottleneck (L : VUNetLayers α) (x : List α) : List α := L.enc_conv4 (enc3_pool L x)

/-- The first `dec3` of the source: `dec3 = self.upconv3(bottleneck)`. -/
def up3 (L : VUNetLayers α) (x : List α) : List α := L.upconv3 (bottleneck L x)

/-- `dec3 = torch.cat((dec3, enc3), dim=1)`. -/
def cat3 (L : VUNetLayers α) (x : List α) : List α := torchCat (up3 L x) (enc3 L x)

/-- `dec3 = self.dec_conv3(dec3)`. -/
def dec3 (L : VUNetLayers α) (x : List α) : List α := L.dec_conv3 (cat3 L x)

/-- `dec2 = self.upconv2(dec3)`. -/
def up2 (L : VUNetLayers α) (x : List α) : List α := L.upconv2 (dec3 L x)

/-- `dec2 = torch.cat((dec2, enc2), dim=1)`. -/
def cat2 (L : VUNetLayers α) (x : List α) : List α := torchCat (up2 L x) (enc2 L x)

/-- `dec2 = self.dec_conv2(dec2)`. -/
def dec2 (L : VUNetLayers α) (x : List α) : List α := L.dec_conv2 (cat2 L x)

/-- `dec1 = self.upconv1(dec2)`. -/
def up1 (L : VUNetLayers α) (x : List α) : List α := L.upconv1 (dec2 L x)

/-- `dec1 = torch.cat((dec1, enc1), dim=1)`. -/
def cat1 (L : VUNetLayers α) (x : List α) : List α := torchCat (up1 L x) (enc1 L x)

/-- `dec1 = self.dec_conv1(dec1)`. -/
def dec1 (L : VUNetLayers α) (x : List α) : List α := L.dec_conv1 (cat1 L x)

/-- `dec0 = self.upconv0(dec1)`. -/
def up0 (L : VUNetLayers α) (x : List α) : List α := L.upconv0 (dec1 L x)

/-- `dec0 = torch.cat((dec0, enc0), dim=1)`. -/
def cat0 (L : VUNetLayers α) (x : List α) : List α := torchCat (up0 L x) (enc0 L x)

/-- `dec0 = self.dec_conv0(dec0)`. -/
def dec0 (L : VUNetLayers α) (x : List α) : List α := L.dec_conv0 (cat0 L x)

/-- `out = self.final_conv(dec0); return out`. -/
def forward (L : VUNetLayers α) (x : List α) : List α := L.final_conv (dec0 L x)

end VUNet

/-! ## The model builder (Cell_Classification/src/utils.py, `get_model`)

A torchvision model is embedded as the list of its parameters; each
parameter carries its attribute path (e.g. `classifier.3.weight`), its
`requires_grad` flag, and a marker for whether it belongs to the linear
layer that `get_model` substitutes for the backbone's final classification
layer.  `hasattr` on a (sub)module is modelled as the existence of a
parameter under the attribute path — every attribute `get_model` probes
(`heads`, `heads.head`, `fc`, `classifier`) is a module holding parameters
in every architecture involved. -/

/-- One model parameter: its attribute path, its `requires_grad` flag and
whether it belongs to the newly substituted final linear layer. -/
structure TParam where
  path : List String
  requiresGrad : Bool
  isNewHead : Bool
deriving DecidableEq, Repr

/-- `pathUnder attr p` holds when parameter path `p` lies under the
attribute path `attr` (i.e. `attr` is an initial segment of `p`). -/
def pathUnder : List String → List String → Bool
  | [], _ => true
  | _ :: _, [] => false
  | a :: as, b :: bs => a = b && pathUnder as bs

/-- The two parameters (`weight`, `bias`) of an `nn.Linear` living at
attribute path `attr`, as constructed by the backbone (not the new head). -/
def linearParams (attr : List String) : List TParam :=
  [⟨attr ++ ["weight"], true, false⟩, ⟨attr ++ ["bias"], true, false⟩]

/-- Parameter layout of `torchvision.models.vit_b_16` (modelled from the
torchvision library): patch-embedding and encoder parameters, and the
classification head `heads.head`, an `nn.Linear`. -/
def vit_b_16Params : List TParam :=
  ⟨["conv_proj", "weight"], true, false⟩ ::
  linearParams ["encoder", "layers", "encoder_layer_0", "mlp", "0"] ++
  linearParams ["heads", "head"]

/-- Parameter layout of `torchvision.models.vit_b_32` (modelled from the
torchvision library): same attribute structure as `vit_b_16`. -/
def vit_b_32Params : List TParam :=
  ⟨["conv_proj", "weight"], true, false⟩ ::
  linearParams ["encoder", "layers", "encoder_layer_0", "mlp", "0"] ++
  linearParams ["heads", "head"]

/-- Parameter layout of `torchvision.models.resnet50` (modelled from the
torchvision library): convolutional trunk and the classification layer
`fc`, an `nn.Linear`. -/
def resnet50Params : List TParam :=
  ⟨["conv1", "weight"], true, false⟩ ::
  ⟨["layer1", "0", "conv1", "weight"], true, false⟩ ::
  linearParams ["fc"]

/-- Parameter layout of `torchvision.models.resnet101` (modelled from the
torchvision library): same attribute structure as `resnet50`. -/
def resnet101Params : List TParam :=
  ⟨["conv1", "weight"], true, false⟩ ::
  ⟨["layer1", "0", "conv1", "weight"], true, false⟩ ::
  linearParams ["fc"]

/-- Parameter layout of `torchvision.models.efficientnet_b0` (modelled from
the torchvision library): feature extractor, and
`classifier = Sequential(Dropout, Linear)` — the `Dropout` at index 0 has
no parameters and the `Linear` sits at `classifier.1`. -/
def efficientnet_b0Params : List TParam :=
  ⟨["features", "0", "0", "weight"], true, false⟩ ::
  linearParams ["classifier", "1"]

/-- Parameter layout of `torchvision.models.efficientnet_b4` (modelled from
the torchvision library): same attribute structure as `efficientnet_b0`. -/
def efficientnet_b4Params : List TParam :=
  ⟨["features", "0", "0", "weight"], true, false⟩ ::
  linearParams ["classifier", "1"]

/-- Parameter layout of `torchvision.models.mobilenet_v3_large` (modelled
from the torchvision library): feature extractor, and
`classifier = Sequential(Linear(960, 1280), Hardswish, Dropout,
Linear(1280, num_classes))` — the hidden `Linear` at `classifier.0` has
parameters of its own, the final `Linear` sits at `classifier.3`. -/
def mobilenet_v3_largeParams : List TParam :=
  ⟨["features", "0", "0", "weight"], true, false⟩ ::
  linearParams ["classifier", "0"] ++
  linearParams ["classifier", "3"]

/-- Parameter layout of `torchvision.models.densenet121` (modelled from the
torchvision library): feature extractor, and the classification layer
`classifier`, itself an `nn.Linear`. -/
def densenet121Params : List TParam :=
  ⟨["features", "conv0", "weight"], true, false⟩ ::
  linearParams ["classifier"]

/-- `hasattr` on the module at attribute path `attr`, modelled as the
existence of a parameter under that path. -/
def hasAttr (ps : List TParam) (attr : List String) : Bool :=
  ps.any fun p => pathUnder attr p.path

/-- Replacing the module at `attr` by a fresh `nn.Linear(in_features,
num_classes)`: the old parameters under `attr` disappear, the new layer's
`weight` and `bias` (marked as the new head, `requires_grad=True` as for
any fresh module) appear. -/
def replaceHead (ps : List TParam) (attr : List String) : List TParam :=
  ps.filter (fun p => !(pathUnder attr p.path)) ++
    [⟨attr ++ ["weight"], true, true⟩, ⟨attr ++ ["bias"], true, true⟩]

/-- `for param in model.parameters(): param.requires_grad = False`. -/
def freezeAll (ps : List TParam) : List TParam :=
  ps.map fun p => { p with requiresGrad := false }

/-- `for param in <module at attr>.parameters(): param.requires_grad = True`. -/
def unfreezeUnder (attr : List String) (ps : List TParam) : List TParam :=
  ps.map fun p =>
    if pathUnder attr p.path then { p with requiresGrad := true } else p

/-- The two exceptions `get_model` can raise. -/
inductive ModelError where
  | valueError (msg : String)
  | attributeError (msg : String)
deriving DecidableEq, Repr

/-- Python's `str.startswith`, computed on the character lists (the
byte-level `String.startsWith` of the standard library does not reduce
inside proofs). -/
def strStartsWith (s p : String) : Bool := p.data.isPrefixOf s.data

/-- Equality of `Except` values is decidable when it is for both
components; lets concrete runs of the builder be checked by `decide`. -/
instance instDecEqExcept {ε α : Type} [DecidableEq ε] [DecidableEq α] :
    DecidableEq (Except ε α) := fun x y =>
  match x, y with
  | Except.error e, Except.error f =>
    match decEq e f with
    | isTrue h => isTrue (by rw [h])
    | isFalse h => isFalse (by intro hc; injection hc; exact h ‹_›)
  | Except.error _, Except.ok _ => isFalse (fun hc => Except.noConfusion hc)
  | Except.ok _, Except.error _ => isFalse (fun hc => Except.noConfusion hc)
  | Except.ok a, Except.ok b =>
    match decEq a b with
    | isTrue h => isTrue (by rw [h])
    | isFalse h => isFalse (by intro hc; injection hc; exact h ‹_›)

/-- The architecture dispatch of `get_model` (the `if/elif` chain): for each
recognized token, build the backbone and replace its final classification
layer by a fresh `nn.Linear(in_features, num_classes)`; otherwise raise
`ValueError(f"Unsupported model architecture: {model_name}")`.  The
`num_classes` and `pretrained` arguments only affect layer widths and
weight values, which the parameter-list embedding does not track. -/
def buildBackbone (model_name : String) (num_classes : Nat) (pretrained : Bool) :
    Except ModelError (List TParam) :=
  if model_name = "ViT" then
    Except.ok (replaceHead vit_b_16Params ["heads", "head"])
  else if model_name = "ViT32" then
    Except.ok (replaceHead vit_b_32Params ["heads", "head"])
  else if model_name = "ResNet101" then
    Except.ok (replaceHead resnet101Params ["fc"])
  else if model_name = "ResNet50" then
    Except.ok (replaceHead resnet50Params ["fc"])
  else if model_name = "EfficientNetB0" then
    Except.ok (replaceHead efficientnet_b0Params ["classifier", "1"])
  else if model_name = "EfficientNetB4" then
    Except.ok (replaceHead efficientnet_b4Params ["classifier", "1"])
  else if model_name = "MobileNetV3" then
    Except.ok (replaceHead mobilenet_v3_largeParams ["classifier", "3"])
  else if model_name = "DenseNet121" then
    Except.ok (replaceHead densenet121Params ["classifier"])
  else
    Except.error (ModelError.valueError ("Unsupported model architecture: " ++ model_name))

/-- The freeze block of `get_model`: freeze every parameter, then unfreeze
by the lookup order of the source — for `ViT*` models `heads.head` first,
else `classifier`; for the rest `fc` first, else `classifier`; raise
`AttributeError` when neither attribute exists. -/
def freezeModel (model_name : String) (ps : List TParam) :
    Except ModelError (List TParam) :=
  let frozen := freezeAll ps
  if strStartsWith model_name "ViT" then
    if hasAttr frozen ["heads"] && hasAttr frozen ["heads", "head"] then
      Except.ok (unfreezeUnder ["heads", "head"] frozen)
    else if hasAttr frozen ["classifier"] then
      Except.ok (unfreezeUnder ["classifier"] frozen)
    else
      Except.error (ModelError.attributeError "Cannot find the classifier head to unfreeze.")
  else
    if hasAttr frozen ["fc"] then
      Except.ok (unfreezeUnder ["fc"] frozen)
    else if hasAttr frozen ["classifier"] then
      Except.ok (unfreezeUnder ["classifier"] frozen)
    else
      Except.error (ModelError.attributeError "Cannot find the classifier head to unfreeze.")

/-- `get_model(model_name, num_classes=1, pretrained=True, freeze=True)`:
dispatch on the architecture token, then apply the freeze block when
`freeze` is set. -/
def get_model (model_name : String) (num_classes : Nat) (pretrained freeze : Bool) :
    Except ModelError (List TParam) :=
  ebind (buildBackbone model_name num_classes pretrained) fun model =>
  if freeze then freezeModel model_name model else Except.ok model

/-- The 8 architecture tokens `get_model` recognizes, in dispatch order. -/
def supportedArchitectures : List String :=
  ["ViT", "ViT32", "ResNet101", "ResNet50",
   "EfficientNetB0", "EfficientNetB4", "MobileNetV3", "DenseNet121"]

/-- Exactly the parameters of the newly substituted final linear layer are
trainable. -/
def trainableExactlyNewHead (ps : List TParam) : Bool :=
  ps.all fun p => p.requiresGrad == p.isNewHead

/-- Exactly the parameters under attribute path `attr` are trainable. -/
def trainableExactlyUnder (attr : List String) (ps : List TParam) : Bool :=
  ps.all fun p => p.requiresGrad == pathUnder attr p.path

/-- The attribute probe order of the freeze block succeeds on `ps` for
architecture token `model_name`. -/
def unfreezeHeadFound (model_name : String) (ps : List TParam) : Bool :=
  if strStartsWith model_name "ViT" then
    (hasAttr ps ["heads"] && hasAttr ps ["heads", "head"]) || hasAttr ps ["classifier"]
  else
    hasAttr ps ["fc"] || hasAttr ps ["classifier"]

/-! ## `calculate_custom_score` (Cell_Classification/src/utils.py)

Label arrays are embedded as integer lists (the function compares entries
to the literals 0 and 1; NumPy requires equal lengths for the elementwise
`&`, so the element pairs are formed by `zip`).  The score is computed in
`ℚ`, which is exact where the claim needs it: the guarded branch returns
the literal `0.0` and the other branch performs one division with a
nonzero denominator. -/

/-- `a0 = np.sum((y_true == 0) & (y_pred == 0))` — the true negatives. -/
def customScore_a0 (y_true y_pred : List Int) : Nat :=
  ((y_true.zip y_pred).filter fun p => p.1 == 0 && p.2 == 0).length

/-- `a1 = np.sum((y_true == 1) & (y_pred == 1))` — the true positives. -/
def customScore_a1 (y_true y_pred : List Int) : Nat :=
  ((y_true.zip y_pred).filter fun p => p.1 == 1 && p.2 == 1).length

/-- `n0 = np.sum(y_true == 0)` — the actual class-0 count. -/
def customScore_n0 (y_true : List Int) : Nat :=
  (y_true.filter fun v => v == 0).length

/-- `n1 = np.sum(y_true == 1)` — the actual class-1 count. -/
def customScore_n1 (y_true : List Int) : Nat :=
  (y_true.filter fun v => v == 1).length

/-- `calculate_custom_score(y_true, y_pred)`: `0.0` when `n0 == 0 or
n1 == 0`, else `(a0 * a1) / (n0 * n1)`. -/
def calculate_custom_score (y_true y_pred : List Int) : ℚ :=
  if customScore_n0 y_true = 0 ∨ customScore_n1 y_true = 0 then 0
  else
    ((customScore_a0 y_true y_pred * customScore_a1 y_true y_pred : Nat) : ℚ) /
      ((customScore_n0 y_true * customScore_n1 y_true : Nat) : ℚ)

/-! ## `save_image_as_tif` (Cell_Classification/src/utils.py)

A NumPy image is embedded as either a 2-D integer array (`len(shape) != 3`
case) or a 3-channel array of BGR triples; pixel values are integers (the
dtype's values).  `astype(np.uint16)` is a reduction modulo `2^16`;
`cv2.cvtColor(image, cv2.COLOR_BGR2GRAY)` is modelled from OpenCV as the
fixed-point formula `(4899*R + 9617*G + 1868*B + 8192) >> 14`; saving with
PIL mode `I;16` and re-reading the TIFF is modelled from PIL as the
identity on the stored 16-bit pixel data.  The `ValueError` for non-array
input is unrepresentable here: the embedding's input type only contains
arrays. -/

/-- A NumPy image: a 2-D (single-channel) array or a 3-channel BGR array. -/
inductive NpImage where
  | gray (h w : Nat) (px : Nat → Nat → Int)
  | color (h w : Nat) (px : Nat → Nat → Int × Int × Int)

/-- A saved TIFF: single-channel, 16-bit pixel data. -/
structure TifImage where
  height : Nat
  width : Nat
  px : Nat → Nat → Nat

/-- `astype(np.uint16)` on one value: reduction modulo `2^16` (NumPy
integer casts wrap). -/
def npToUint16 (v : Int) : Nat := (v % 65536).toNat

/-- `cv2.cvtColor(·, cv2.COLOR_BGR2GRAY)` on one BGR pixel (modelled from
OpenCV's fixed-point coefficients). -/
def cvtColorBGR2GRAY (bgr : Int × Int × Int) : Int :=
  (4899 * bgr.2.2 + 9617 * bgr.2.1 + 1868 * bgr.1 + 8192) / 16384

/-- The height of a NumPy image. -/
def NpImage.height : NpImage → Nat
  | NpImage.gray h _ _ => h
  | NpImage.color h _ _ => h

/-- The width of a NumPy image. -/
def NpImage.width : NpImage → Nat
  | NpImage.gray _ w _ => w
  | NpImage.color _ w _ => w

/-- The single-channel value `save_image_as_tif` derives per pixel before
the 16-bit cast: the pixel itself for 2-D input, its grayscale conversion
for 3-channel input. -/
def grayPixel : NpImage → Nat → Nat → Int
  | NpImage.gray _ _ px, y, x => px y x
  | NpImage.color _ _ px, y, x => cvtColorBGR2GRAY (px y x)

/-- `save_image_as_tif(image, output_path)`: grayscale when the input has
three channels, cast to `uint16`, write as a single-channel 16-bit TIFF. -/
def save_image_as_tif (image : NpImage) : TifImage :=
  match image with
  | NpImage.gray h w px => ⟨h, w, fun y x => npToUint16 (px y x)⟩
  | NpImage.color h w px => ⟨h, w, fun y x => npToUint16 (cvtColorBGR2GRAY (px y x))⟩

/-- Re-reading the written TIFF file (modelled from PIL: mode `I;16` TIFF
writing and reading round-trips the stored 16-bit pixel data). -/
def readSavedTif (t : TifImage) : TifImage := t

/-! ## The `/predict` endpoint (Cell_Classification/api.py)

The endpoint body is a `try` block whose steps each either produce a value
or raise; the single `except Exception` clause turns any raise into
`HTTPException(status_code=400, detail=str(e))`, which FastAPI serializes
as status 400 with body `{detail: <message>}`.  The endpoint is embedded as
a function of the three effectful step outcomes (decode, save, predict),
each an `Except String ·` carrying the stringified exception. -/

/-- What `load_sample(request.cell).get("image")` produced: a NumPy array
or some other (non-array) object. -/
inductive DecodedValue where
  | ndarray
  | other
deriving DecidableEq, Repr

/-- A wire response: HTTP status plus body. -/
inductive RespBody where
  | isHomogenous (v : Int)
  | detail (msg : String)
deriving DecidableEq, Repr

/-- An HTTP response of the endpoint. -/
structure Response where
  status : Nat
  body : RespBody
deriving DecidableEq, Repr

/-- `predict_endpoint(request)`: decode (`load_sample` may raise; `None`
triggers `ValueError("Image decoding failed.")`; a non-array triggers
`TypeError("Decoded image is not a NumPy array.")`), then save (may
raise), then predict (may raise), then respond 200 with
`{is_homogenous: <prediction>}`; any raise is caught and answered as 400
with `{detail: str(e)}`. -/
def predict_endpoint (decodeR : Except String (Option DecodedValue))
    (saveR : Except String Unit) (predictR : Except String Int) : Response :=
  match decodeR with
  | Except.error e => ⟨400, RespBody.detail e⟩
  | Except.ok none => ⟨400, RespBody.detail "Image decoding failed."⟩
  | Except.ok (some DecodedValue.other) =>
      ⟨400, RespBody.detail "Decoded image is not a NumPy array."⟩
  | Except.ok (some DecodedValue.ndarray) =>
    match saveR with
    | Except.error e => ⟨400, RespBody.detail e⟩
    | Except.ok _ =>
      match predictR with
      | Except.error e => ⟨400, RespBody.detail e⟩
      | Except.ok v => ⟨200, RespBody.isHomogenous v⟩

/-- The parameter list produced by `get_model("MobileNetV3", freeze=True)`
in the embedding, written out. -/
def mobilenetV3Frozen : List TParam :=
  [⟨["features", "0", "0", "weight"], false, false⟩,
   ⟨["classifier", "0", "weight"], true, false⟩,
   ⟨["classifier", "0", "bias"], true, false⟩,
   ⟨["classifier", "3", "weight"], true, true⟩,
   ⟨["classifier", "3", "bias"], true, true⟩]

/-! # Theorems -/

@[simp] theorem ebind_ok {ε α β : Type} (a : α) (f : α → Except ε β) :
    ebind (Except.ok a) f = f a := rfl

@[simp] theorem ebind_error {ε α β : Type} (e : ε) (f : α → Except ε β) :
    ebind (Except.error e) f = Except.error e := rfl

theorem conv2dShape_3_1 {inC outC b h w : Nat} (hh : 1 ≤ h) (hw : 1 ≤ w) :
    conv2dShape inC outC 3 1 ⟨b, inC, h, w⟩ = Except.ok ⟨b, outC, h, w⟩ := by
  unfold conv2dShape
  have hcond : 3 ≤ h + 2 * 1 ∧ 3 ≤ w + 2 * 1 := ⟨by omega, by omega⟩
  rw [if_pos rfl, if_pos hcond]
  rw [(by omega : h + 2 * 1 + 1 - 3 = h), (by omega : w + 2 * 1 + 1 - 3 = w)]

theorem batchNorm2dShape_ok {c b h w : Nat} :
    batchNorm2dShape c ⟨b, c, h, w⟩ = Except.ok ⟨b, c, h, w⟩ := by
  unfold batchNorm2dShape
  rw [if_pos rfl]

theorem convBlockShape_ok {inC outC b h w : Nat} (hh : 1 ≤ h) (hw : 1 ≤ w) :
    convBlockShape inC outC ⟨b, inC, h, w⟩ = Except.ok ⟨b, outC, h, w⟩ := by
  unfold convBlockShape
  rw [conv2dShape_3_1 hh hw]
  simp only [ebind_ok, reluShape]
  rw [batchNorm2dShape_ok]
  simp only [ebind_ok]
  rw [conv2dShape_3_1 hh hw]
  simp only [ebind_ok, reluShape]
  rw [batchNorm2dShape_ok]

theorem maxPool2dShape_ok {st b c h w : Nat} (hh : 2 ≤ h) (hw : 2 ≤ w) :
    maxPool2dShape st ⟨b, c, h, w⟩ = Except.ok ⟨b, c, h / 2, w / 2⟩ := by
  unfold maxPool2dShape
  rw [if_pos ⟨hh, hw⟩]

theorem maxPool2dShape_err {st b c h w : Nat} (hsmall : ¬(2 ≤ h ∧ 2 ≤ w)) :
    maxPool2dShape st ⟨b, c, h, w⟩ = Except.error (ShapeError.poolTooSmall st) := by
  unfold maxPool2dShape
  rw [if_neg hsmall]

theorem convTranspose2dShape_ok {inC outC b h w : Nat} (hh : 1 ≤ h) (hw : 1 ≤ w) :
    convTranspose2dShape inC outC ⟨b, inC, h, w⟩ = Except.ok ⟨b, outC, 2 * h, 2 * w⟩ := by
  unfold convTranspose2dShape
  rw [if_pos rfl, if_pos ⟨hh, hw⟩]

theorem catShape_ok {d b c1 c2 h w : Nat} :
    catShape d ⟨b, c1, h, w⟩ ⟨b, c2, h, w⟩ = Except.ok ⟨b, c1 + c2, h, w⟩ := by
  unfold catShape
  rw [if_pos ⟨rfl, rfl, rfl⟩]

theorem catShape_err {d b1 b2 c1 c2 h1 h2 w1 w2 : Nat}
    (hne : ¬(b1 = b2 ∧ h1 = h2 ∧ w1 = w2)) :
    catShape d ⟨b1, c1, h1, w1⟩ ⟨b2, c2, h2, w2⟩ =
      Except.error (ShapeError.catMismatch d) := by
  unfold catShape
  rw [if_neg hne]

/-- C2 (amended): for every 4D input of shape `batch × in_channels × H × W`
with `H` and `W` *positive* and divisible by 16, the U-Net forward pass
returns a tensor of shape `batch × out_channels × H × W`.  (Positivity is
needed: at `H = W = 0` — divisible by 16 — the first convolution raises,
see the counterexample.) -/
theorem unet_forward_shape_div16 (b in_channels out_channels H W : Nat)
    (hH16 : H % 16 = 0) (hW16 : W % 16 = 0) (hH : 1 ≤ H) (hW : 1 ≤ W) :
    unetForwardShape in_channels out_channels ⟨b, in_channels, H, W⟩ =
      Except.ok ⟨b, out_channels, H, W⟩ := by
  simp only [unetForwardShape, UNetModules.ofConfig]
  have e1 : convBlockShape in_channels 64 ⟨b, in_channels, H, W⟩ =
      Except.ok ⟨b, 64, H, W⟩ := convBlockShape_ok (by omega) (by omega)
  rw [e1, ebind_ok]
  have e2 : maxPool2dShape 0 ⟨b, 64, H, W⟩ = Except.ok ⟨b, 64, H / 2, W / 2⟩ :=
    maxPool2dShape_ok (by omega) (by omega)
  rw [e2, ebind_ok]
  have e3 : convBlockShape 64 128 ⟨b, 64, H / 2, W / 2⟩ =
      Except.ok ⟨b, 128, H / 2, W / 2⟩ := convBlockShape_ok (by omega) (by omega)
  rw [e3, ebind_ok]
  have e4 : maxPool2dShape 1 ⟨b, 128, H / 2, W / 2⟩ =
      Except.ok ⟨b, 128, H / 2 / 2, W / 2 / 2⟩ :=
    maxPool2dShape_ok (by omega) (by omega)
  rw [e4, ebind_ok]
  have e5 : convBlockShape 128 256 ⟨b, 128, H / 2 / 2, W / 2 / 2⟩ =
      Except.ok ⟨b, 256, H / 2 / 2, W / 2 / 2⟩ := convBlockShape_ok (by omega) (by omega)
  rw [e5, ebind_ok]
  have e6 : maxPool2dShape 2 ⟨b, 256, H / 2 / 2, W / 2 / 2⟩ =
      Except.ok ⟨b, 256, H / 2 / 2 / 2, W / 2 / 2 / 2⟩ :=
    maxPool2dShape_ok (by omega) (by omega)
  rw [e6, ebind_ok]
  have e7 : convBlockShape 256 512 ⟨b, 256, H / 2 / 2 / 2, W / 2 / 2 / 2⟩ =
      Except.ok ⟨b, 512, H / 2 / 2 / 2, W / 2 / 2 / 2⟩ :=
    convBlockShape_ok (by omega) (by omega)
  rw [e7, ebind_ok]
  have e8 : maxPool2dShape 3 ⟨b, 512, H / 2 / 2 / 2, W / 2 / 2 / 2⟩ =
      Except.ok ⟨b, 512, H / 2 / 2 / 2 / 2, W / 2 / 2 / 2 / 2⟩ :=
    maxPool2dShape_ok (by omega) (by omega)
  rw [e8, ebind_ok]
  have e9 : convBlockShape 512 1024 ⟨b, 512, H / 2 / 2 / 2 / 2, W / 2 / 2 / 2 / 2⟩ =
      Except.ok ⟨b, 1024, H / 2 / 2 / 2 / 2, W / 2 / 2 / 2 / 2⟩ :=
    convBlockShape_ok (by omega) (by omega)
  rw [e9, ebind_ok]
  have e10 : convTranspose2dShape 1024 512 ⟨b, 1024, H / 2 / 2 / 2 / 2, W / 2 / 2 / 2 / 2⟩ =
      Except.ok ⟨b, 512, 2 * (H / 2 / 2 / 2 / 2), 2 * (W / 2 / 2 / 2 / 2)⟩ :=
    convTranspose2dShape_ok (by omega) (by omega)
  rw [e10, ebind_ok]
  have e11 : catShape 3 ⟨b, 512, 2 * (H / 2 / 2 / 2 / 2), 2 * (W / 2 / 2 / 2 / 2)⟩
      ⟨b, 512, H / 2 / 2 / 2, W / 2 / 2 / 2⟩ =
      Except.ok ⟨b, 1024, H / 2 / 2 / 2, W / 2 / 2 / 2⟩ := by
    rw [(by omega : 2 * (H / 2 / 2 / 2 / 2) = H / 2 / 2 / 2),
        (by omega : 2 * (W / 2 / 2 / 2 / 2) = W / 2 / 2 / 2)]
    exact catShape_ok
  rw [e11, ebind_ok]
  have e12 : convBlockShape 1024 512 ⟨b, 1024, H / 2 / 2 / 2, W / 2 / 2 / 2⟩ =
      Except.ok ⟨b, 512, H / 2 / 2 / 2, W / 2 / 2 / 2⟩ :=
    convBlockShape_ok (by omega) (by omega)
  rw [e12, ebind_ok]
  have e13 : convTranspose2dShape 512 256 ⟨b, 512, H / 2 / 2 / 2, W / 2 / 2 / 2⟩ =
      Except.ok ⟨b, 256, 2 * (H / 2 / 2 / 2), 2 * (W / 2 / 2 / 2)⟩ :=
    convTranspose2dShape_ok (by omega) (by omega)
  rw [e13, ebind_ok]
  have e14 : catShape 2 ⟨b, 256, 2 * (H / 2 / 2 / 2), 2 * (W / 2 / 2 / 2)⟩
      ⟨b, 256, H / 2 / 2, W / 2 / 2⟩ =
      Except.ok ⟨b, 512, H / 2 / 2, W / 2 / 2⟩ := by
    rw [(by omega : 2 * (H / 2 / 2 / 2) = H / 2 / 2),
        (by omega : 2 * (W / 2 / 2 / 2) = W / 2 / 2)]
    exact catShape_ok
  rw [e14, ebind_ok]
  have e15 : convBlockShape 512 256 ⟨b, 512, H / 2 / 2, W / 2 / 2⟩ =
      Except.ok ⟨b, 256, H / 2 / 2, W / 2 / 2⟩ := convBlockShape_ok (by omega) (by omega)
  rw [e15, ebind_ok]
  have e16 : convTranspose2dShape 256 128 ⟨b, 256, H / 2 / 2, W / 2 / 2⟩ =
      Except.ok ⟨b, 128, 2 * (H / 2 / 2), 2 * (W / 2 / 2)⟩ :=
    convTranspose2dShape_ok (by omega) (by omega)
  rw [e16, ebind_ok]
  have e17 : catShape 1 ⟨b, 128, 2 * (H / 2 / 2), 2 * (W / 2 / 2)⟩
      ⟨b, 128, H / 2, W / 2⟩ = Except.ok ⟨b, 256, H / 2, W / 2⟩ := by
    rw [(by omega : 2 * (H / 2 / 2) = H / 2), (by omega : 2 * (W / 2 / 2) = W / 2)]
    exact catShape_ok
  rw [e17, ebind_ok]
  have e18 : convBlockShape 256 128 ⟨b, 256, H / 2, W / 2⟩ =
      Except.ok ⟨b, 128, H / 2, W / 2⟩ := convBlockShape_ok (by omega) (by omega)
  rw [e18, ebind_ok]
  have e19 : convTranspose2dShape 128 64 ⟨b, 128, H / 2, W / 2⟩ =
      Except.ok ⟨b, 64, 2 * (H / 2), 2 * (W / 2)⟩ :=
    convTranspose2dShape_ok (by omega) (by omega)
  rw [e19, ebind_ok]
  have e20 : catShape 0 ⟨b, 64, 2 * (H / 2), 2 * (W / 2)⟩ ⟨b, 64, H, W⟩ =
      Except.ok ⟨b, 128, H, W⟩ := by
    rw [(by omega : 2 * (H / 2) = H), (by omega : 2 * (W / 2) = W)]
    exact catShape_ok
  rw [e20, ebind_ok]
  have e21 : convBlockShape 128 64 ⟨b, 128, H, W⟩ = Except.ok ⟨b, 64, H, W⟩ :=
    convBlockShape_ok (by omega) (by omega)
  rw [e21, ebind_ok]
  have e22 : conv2dShape 64 out_channels 1 0 ⟨b, 64, H, W⟩ =
      Except.ok ⟨b, out_channels, H, W⟩ := by
    unfold conv2dShape
    have hcond : 1 ≤ H + 2 * 0 ∧ 1 ≤ W + 2 * 0 := ⟨by omega, by omega⟩
    rw [if_pos rfl, if_pos hcond]
    rw [(by omega : H + 2 * 0 + 1 - 1 = H), (by omega : W + 2 * 0 + 1 - 1 = W)]
  rw [e22]

/-- C2 counterexample: the degenerate tensor `1 × 4 × 0 × 0` has both
spatial dimensions divisible by 16, but the forward pass raises in the very
first convolution (kernel 3×3 exceeds the padded 2×2 input) instead of
returning a `1 × 1 × 0 × 0` tensor. -/
theorem unet_forward_shape_zero_counterexample :
    (0 : Nat) % 16 = 0 ∧
    unetForwardShape 4 1 ⟨1, 4, 0, 0⟩ = Except.error ShapeError.kernelTooLarge ∧
    unetForwardShape 4 1 ⟨1, 4, 0, 0⟩ ≠ Except.ok ⟨1, 1, 0, 0⟩ := by
  refine ⟨rfl, rfl, fun hcon => ?_⟩
  rw [(rfl : unetForwardShape 4 1 ⟨1, 4, 0, 0⟩ =
      Except.error ShapeError.kernelTooLarge)] at hcon
  exact Except.noConfusion hcon

/-- C2 witness: a `1 × 4 × 16 × 16` input maps to a `1 × 1 × 16 × 16`
output. -/
theorem unet_forward_shape_div16_witness :
    unetForwardShape 4 1 ⟨1, 4, 16, 16⟩ = Except.ok ⟨1, 1, 16, 16⟩ :=
  unet_forward_shape_div16 1 4 1 16 16 (by decide) (by decide) (by decide) (by decide)

/-- C8 (amended): for every input with positive spatial dimensions not both
divisible by 16, the U-Net forward pass fails — with a shape-mismatch error
at the channel-wise concatenation of the matching decoder depth, or, when a
spatial dimension has collapsed to 1 before one of the four poolings, with
a too-small error at that pooling (see the counterexample: at 8×8 the
failure is at `pool3`, before any concatenation). -/
theorem unet_forward_shape_not_div16 (b in_channels out_channels H W : Nat)
    (hH : 1 ≤ H) (hW : 1 ≤ W) (hnd : ¬(H % 16 = 0 ∧ W % 16 = 0)) :
    ∃ e, unetForwardShape in_channels out_channels ⟨b, in_channels, H, W⟩ =
        Except.error e ∧ ShapeError.isPoolOrCat e = true := by
  simp only [unetForwardShape, UNetModules.ofConfig]
  have e1 : convBlockShape in_channels 64 ⟨b, in_channels, H, W⟩ =
      Except.ok ⟨b, 64, H, W⟩ := convBlockShape_ok (by omega) (by omega)
  rw [e1, ebind_ok]
  by_cases c0 : 2 ≤ H ∧ 2 ≤ W
  · have e2 : maxPool2dShape 0 ⟨b, 64, H, W⟩ = Except.ok ⟨b, 64, H / 2, W / 2⟩ :=
      maxPool2dShape_ok c0.1 c0.2
    rw [e2, ebind_ok]
    have e3 : convBlockShape 64 128 ⟨b, 64, H / 2, W / 2⟩ =
        Except.ok ⟨b, 128, H / 2, W / 2⟩ := convBlockShape_ok (by omega) (by omega)
    rw [e3, ebind_ok]
    by_cases c1 : 2 ≤ H / 2 ∧ 2 ≤ W / 2
    · have e4 : maxPool2dShape 1 ⟨b, 128, H / 2, W / 2⟩ =
          Except.ok ⟨b, 128, H / 2 / 2, W / 2 / 2⟩ := maxPool2dShape_ok c1.1 c1.2
      rw [e4, ebind_ok]
      have e5 : convBlockShape 128 256 ⟨b, 128, H / 2 / 2, W / 2 / 2⟩ =
          Except.ok ⟨b, 256, H / 2 / 2, W / 2 / 2⟩ :=
        convBlockShape_ok (by omega) (by omega)
      rw [e5, ebind_ok]
      by_cases c2 : 2 ≤ H / 2 / 2 ∧ 2 ≤ W / 2 / 2
      · have e6 : maxPool2dShape 2 ⟨b, 256, H / 2 / 2, W / 2 / 2⟩ =
            Except.ok ⟨b, 256, H / 2 / 2 / 2, W / 2 / 2 / 2⟩ :=
          maxPool2dShape_ok c2.1 c2.2
        rw [e6, ebind_ok]
        have e7 : convBlockShape 256 512 ⟨b, 256, H / 2 / 2 / 2, W / 2 / 2 / 2⟩ =
            Except.ok ⟨b, 512, H / 2 / 2 / 2, W / 2 / 2 / 2⟩ :=
          convBlockShape_ok (by omega) (by omega)
        rw [e7, ebind_ok]
        by_cases c3 : 2 ≤ H / 2 / 2 / 2 ∧ 2 ≤ W / 2 / 2 / 2
        · have e8 : maxPool2dShape 3 ⟨b, 512, H / 2 / 2 / 2, W / 2 / 2 / 2⟩ =
              Except.ok ⟨b, 512, H / 2 / 2 / 2 / 2, W / 2 / 2 / 2 / 2⟩ :=
            maxPool2dShape_ok c3.1 c3.2
          rw [e8, ebind_ok]
          have e9 : convBlockShape 512 1024
              ⟨b, 512, H / 2 / 2 / 2 / 2, W / 2 / 2 / 2 / 2⟩ =
              Except.ok ⟨b, 1024, H / 2 / 2 / 2 / 2, W / 2 / 2 / 2 / 2⟩ :=
            convBlockShape_ok (by omega) (by omega)
          rw [e9, ebind_ok]
          have e10 : convTranspose2dShape 1024 512
              ⟨b, 1024, H / 2 / 2 / 2 / 2, W / 2 / 2 / 2 / 2⟩ =
              Except.ok ⟨b, 512, 2 * (H / 2 / 2 / 2 / 2), 2 * (W / 2 / 2 / 2 / 2)⟩ :=
            convTranspose2dShape_ok (by omega) (by omega)
          rw [e10, ebind_ok]
          by_cases d3 : 2 * (H / 2 / 2 / 2 / 2) = H / 2 / 2 / 2 ∧
              2 * (W / 2 / 2 / 2 / 2) = W / 2 / 2 / 2
          · have e11 : catShape 3
                ⟨b, 512, 2 * (H / 2 / 2 / 2 / 2), 2 * (W / 2 / 2 / 2 / 2)⟩
                ⟨b, 512, H / 2 / 2 / 2, W / 2 / 2 / 2⟩ =
                Except.ok ⟨b, 1024, H / 2 / 2 / 2, W / 2 / 2 / 2⟩ := by
              rw [d3.1, d3.2]
              exact catShape_ok
            rw [e11, ebind_ok]
            have e12 : convBlockShape 1024 512 ⟨b, 1024, H / 2 / 2 / 2, W / 2 / 2 / 2⟩ =
                Except.ok ⟨b, 512, H / 2 / 2 / 2, W / 2 / 2 / 2⟩ :=
              convBlockShape_ok (by omega) (by omega)
            rw [e12, ebind_ok]
            have e13 : convTranspose2dShape 512 256
                ⟨b, 512, H / 2 / 2 / 2, W / 2 / 2 / 2⟩ =
                Except.ok ⟨b, 256, 2 * (H / 2 / 2 / 2), 2 * (W / 2 / 2 / 2)⟩ :=
              convTranspose2dShape_ok (by omega) (by omega)
            rw [e13, ebind_ok]
            by_cases d2 : 2 * (H / 2 / 2 / 2) = H / 2 / 2 ∧
                2 * (W / 2 / 2 / 2) = W / 2 / 2
            · have e14 : catShape 2
                  ⟨b, 256, 2 * (H / 2 / 2 / 2), 2 * (W / 2 / 2 / 2)⟩
                  ⟨b, 256, H / 2 / 2, W / 2 / 2⟩ =
                  Except.ok ⟨b, 512, H / 2 / 2, W / 2 / 2⟩ := by
                rw [d2.1, d2.2]
                exact catShape_ok
              rw [e14, ebind_ok]
              have e15 : convBlockShape 512 256 ⟨b, 512, H / 2 / 2, W / 2 / 2⟩ =
                  Except.ok ⟨b, 256, H / 2 / 2, W / 2 / 2⟩ :=
                convBlockShape_ok (by omega) (by omega)
              rw [e15, ebind_ok]
              have e16 : convTranspose2dShape 256 128 ⟨b, 256, H / 2 / 2, W / 2 / 2⟩ =
                  Except.ok ⟨b, 128, 2 * (H / 2 / 2), 2 * (W / 2 / 2)⟩ :=
                convTranspose2dShape_ok (by omega) (by omega)
              rw [e16, ebind_ok]
              by_cases d1 : 2 * (H / 2 / 2) = H / 2 ∧ 2 * (W / 2 / 2) = W / 2
              · have e17 : catShape 1 ⟨b, 128, 2 * (H / 2 / 2), 2 * (W / 2 / 2)⟩
                    ⟨b, 128, H / 2, W / 2⟩ = Except.ok ⟨b, 256, H / 2, W / 2⟩ := by
                  rw [d1.1, d1.2]
                  exact catShape_ok
                rw [e17, ebind_ok]
                have e18 : convBlockShape 256 128 ⟨b, 256, H / 2, W / 2⟩ =
                    Except.ok ⟨b, 128, H / 2, W / 2⟩ :=
                  convBlockShape_ok (by omega) (by omega)
                rw [e18, ebind_ok]
                have e19 : convTranspose2dShape 128 64 ⟨b, 128, H / 2, W / 2⟩ =
                    Except.ok ⟨b, 64, 2 * (H / 2), 2 * (W / 2)⟩ :=
                  convTranspose2dShape_ok (by omega) (by omega)
                rw [e19, ebind_ok]
                by_cases d0 : 2 * (H / 2) = H ∧ 2 * (W / 2) = W
                · exact absurd (⟨by omega, by omega⟩ : H % 16 = 0 ∧ W % 16 = 0) hnd
                · have e20 : catShape 0 ⟨b, 64, 2 * (H / 2), 2 * (W / 2)⟩
                      ⟨b, 64, H, W⟩ = Except.error (ShapeError.catMismatch 0) :=
                    catShape_err (by omega)
                  rw [e20, ebind_error]
                  exact ⟨_, rfl, rfl⟩
              · have e17 : catShape 1 ⟨b, 128, 2 * (H / 2 / 2), 2 * (W / 2 / 2)⟩
                    ⟨b, 128, H / 2, W / 2⟩ =
                    Except.error (ShapeError.catMismatch 1) := catShape_err (by omega)
                rw [e17, ebind_error]
                exact ⟨_, rfl, rfl⟩
            · have e14 : catShape 2 ⟨b, 256, 2 * (H / 2 / 2 / 2), 2 * (W / 2 / 2 / 2)⟩
                  ⟨b, 256, H / 2 / 2, W / 2 / 2⟩ =
                  Except.error (ShapeError.catMismatch 2) := catShape_err (by omega)
              rw [e14, ebind_error]
              exact ⟨_, rfl, rfl⟩
          · have e11 : catShape 3
                ⟨b, 512, 2 * (H / 2 / 2 / 2 / 2), 2 * (W / 2 / 2 / 2 / 2)⟩
                ⟨b, 512, H / 2 / 2 / 2, W / 2 / 2 / 2⟩ =
                Except.error (ShapeError.catMismatch 3) := catShape_err (by omega)
            rw [e11, ebind_error]
            exact ⟨_, rfl, rfl⟩
        · have e8 : maxPool2dShape 3 ⟨b, 512, H / 2 / 2 / 2, W / 2 / 2 / 2⟩ =
              Except.error (ShapeError.poolTooSmall 3) := maxPool2dShape_err c3
          rw [e8, ebind_error]
          exact ⟨_, rfl, rfl⟩
      · have e6 : maxPool2dShape 2 ⟨b, 256, H / 2 / 2, W / 2 / 2⟩ =
            Except.error (ShapeError.poolTooSmall 2) := maxPool2dShape_err c2
        rw [e6, ebind_error]
        exact ⟨_, rfl, rfl⟩
    · have e4 : maxPool2dShape 1 ⟨b, 128, H / 2, W / 2⟩ =
          Except.error (ShapeError.poolTooSmall 1) := maxPool2dShape_err c1
      rw [e4, ebind_error]
      exact ⟨_, rfl, rfl⟩
  · have e2 : maxPool2dShape 0 ⟨b, 64, H, W⟩ =
        Except.error (ShapeError.poolTooSmall 0) := maxPool2dShape_err c0
    rw [e2, ebind_error]
    exact ⟨_, rfl, rfl⟩

/-- C8 counterexample: at a `1 × 4 × 8 × 8` input — spatial dimensions not
divisible by 16 — the forward pass fails at `pool3` (its 1×1 input cannot
be 2×2-pooled), not at a channel-wise concatenation, refuting the claim
that the failure is always a shape-mismatch at the matching decoder
concatenation. -/
theorem unet_forward_shape_pool_counterexample :
    unetForwardShape 4 1 ⟨1, 4, 8, 8⟩ = Except.error (ShapeError.poolTooSmall 3) ∧
    ShapeError.isCat (ShapeError.poolTooSmall 3) = false := ⟨rfl, rfl⟩

/-- C8 witness: at a `1 × 4 × 8 × 8` input, the forward pass fails with a
pool-or-concatenation error. -/
theorem unet_forward_shape_not_div16_witness :
    ∃ e, unetForwardShape 4 1 ⟨1, 4, 8, 8⟩ = Except.error e ∧
        ShapeError.isPoolOrCat e = true :=
  unet_forward_shape_not_div16 1 4 1 8 8 (by decide) (by decide) (by decide)

/-- C4 (confirmed): at every decoder depth the upsampled channel count plus
the skip channel count equals the declared input width of that depth's
fusing conv block: 512+512=1024 at depth 3, 256+256=512 at depth 2,
128+128=256 at depth 1, 64+64=128 at depth 0 — independently of the
configured `in_channels`/`out_channels` and of any weights. -/
theorem unet_decoder_cat_channels (in_channels out_channels : Nat) :
    ((UNetModules.ofConfig in_channels out_channels).upconv3.outC = 512 ∧
      (UNetModules.ofConfig in_channels out_channels).enc_conv3.outC = 512 ∧
      (UNetModules.ofConfig in_channels out_channels).upconv3.outC +
        (UNetModules.ofConfig in_channels out_channels).enc_conv3.outC =
        (UNetModules.ofConfig in_channels out_channels).dec_conv3.inC ∧
      (UNetModules.ofConfig in_channels out_channels).dec_conv3.inC = 1024) ∧
    ((UNetModules.ofConfig in_channels out_channels).upconv2.outC = 256 ∧
      (UNetModules.ofConfig in_channels out_channels).enc_conv2.outC = 256 ∧
      (UNetModules.ofConfig in_channels out_channels).upconv2.outC +
        (UNetModules.ofConfig in_channels out_channels).enc_conv2.outC =
        (UNetModules.ofConfig in_channels out_channels).dec_conv2.inC ∧
      (UNetModules.ofConfig in_channels out_channels).dec_conv2.inC = 512) ∧
    ((UNetModules.ofConfig in_channels out_channels).upconv1.outC = 128 ∧
      (UNetModules.ofConfig in_channels out_channels).enc_conv1.outC = 128 ∧
      (UNetModules.ofConfig in_channels out_channels).upconv1.outC +
        (UNetModules.ofConfig in_channels out_channels).enc_conv1.outC =
        (UNetModules.ofConfig in_channels out_channels).dec_conv1.inC ∧
      (UNetModules.ofConfig in_channels out_channels).dec_conv1.inC = 256) ∧
    ((UNetModules.ofConfig in_channels out_channels).upconv0.outC = 64 ∧
      (UNetModules.ofConfig in_channels out_channels).enc_conv0.outC = 64 ∧
      (UNetModules.ofConfig in_channels out_channels).upconv0.outC +
        (UNetModules.ofConfig in_channels out_channels).enc_conv0.outC =
        (UNetModules.ofConfig in_channels out_channels).dec_conv0.inC ∧
      (UNetModules.ofConfig in_channels out_channels).dec_conv0.inC = 128) :=
  ⟨⟨rfl, rfl, rfl, rfl⟩, ⟨rfl, rfl, rfl, rfl⟩, ⟨rfl, rfl, rfl, rfl⟩, ⟨rfl, rfl, rfl, rfl⟩⟩

/-- C6 (confirmed): at each of the four decoder depths, the concatenated
tensor's initial channels are exactly the upsampled tensor's channels and
the remaining channels are exactly the skip tensor's channels — the
upsampled channels come first, for any weights and any input. -/
theorem unet_cat_places_upsampled_first {α : Type} (L : VUNetLayers α) (x : List α) :
    ((VUNet.cat3 L x).take (VUNet.up3 L x).length = VUNet.up3 L x ∧
      (VUNet.cat3 L x).drop (VUNet.up3 L x).length = VUNet.enc3 L x) ∧
    ((VUNet.cat2 L x).take (VUNet.up2 L x).length = VUNet.up2 L x ∧
      (VUNet.cat2 L x).drop (VUNet.up2 L x).length = VUNet.enc2 L x) ∧
    ((VUNet.cat1 L x).take (VUNet.up1 L x).length = VUNet.up1 L x ∧
      (VUNet.cat1 L x).drop (VUNet.up1 L x).length = VUNet.enc1 L x) ∧
    ((VUNet.cat0 L x).take (VUNet.up0 L x).length = VUNet.up0 L x ∧
      (VUNet.cat0 L x).drop (VUNet.up0 L x).length = VUNet.enc0 L x) :=
  ⟨⟨List.take_left _ _, List.drop_left _ _⟩,
   ⟨List.take_left _ _, List.drop_left _ _⟩,
   ⟨List.take_left _ _, List.drop_left _ _⟩,
   ⟨List.take_left _ _, List.drop_left _ _⟩⟩

/-- C1 (amended): with `freeze=True`, for seven of the eight supported
tokens exactly the parameters of the newly substituted final linear layer
are trainable; for `MobileNetV3` the trainable set is exactly the
parameters under the `classifier` attribute, which also contains the
backbone's hidden linear layer `classifier.0`, so more than the substituted
final layer is left trainable there. -/
theorem get_model_freeze_trainable_amended :
    (∃ m, get_model "ViT" 1 true true = Except.ok m ∧
      trainableExactlyNewHead m = true) ∧
    (∃ m, get_model "ViT32" 1 true true = Except.ok m ∧
      trainableExactlyNewHead m = true) ∧
    (∃ m, get_model "ResNet101" 1 true true = Except.ok m ∧
      trainableExactlyNewHead m = true) ∧
    (∃ m, get_model "ResNet50" 1 true true = Except.ok m ∧
      trainableExactlyNewHead m = true) ∧
    (∃ m, get_model "EfficientNetB0" 1 true true = Except.ok m ∧
      trainableExactlyNewHead m = true) ∧
    (∃ m, get_model "EfficientNetB4" 1 true true = Except.ok m ∧
      trainableExactlyNewHead m = true) ∧
    (∃ m, get_model "DenseNet121" 1 true true = Except.ok m ∧
      trainableExactlyNewHead m = true) ∧
    (∃ m, get_model "MobileNetV3" 1 true true = Except.ok m ∧
      trainableExactlyNewHead m = false ∧
      trainableExactlyUnder ["classifier"] m = true) :=
  ⟨⟨[⟨["conv_proj", "weight"], false, false⟩,
     ⟨["encoder", "layers", "encoder_layer_0", "mlp", "0", "weight"], false, false⟩,
     ⟨["encoder", "layers", "encoder_layer_0", "mlp", "0", "bias"], false, false⟩,
     ⟨["heads", "head", "weight"], true, true⟩,
     ⟨["heads", "head", "bias"], true, true⟩], by decide, by decide⟩,
   ⟨[⟨["conv_proj", "weight"], false, false⟩,
     ⟨["encoder", "layers", "encoder_layer_0", "mlp", "0", "weight"], false, false⟩,
     ⟨["encoder", "layers", "encoder_layer_0", "mlp", "0", "bias"], false, false⟩,
     ⟨["heads", "head", "weight"], true, true⟩,
     ⟨["heads", "head", "bias"], true, true⟩], by decide, by decide⟩,
   ⟨[⟨["conv1", "weight"], false, false⟩,
     ⟨["layer1", "0", "conv1", "weight"], false, false⟩,
     ⟨["fc", "weight"], true, true⟩, ⟨["fc", "bias"], true, true⟩],
     by decide, by decide⟩,
   ⟨[⟨["conv1", "weight"], false, false⟩,
     ⟨["layer1", "0", "conv1", "weight"], false, false⟩,
     ⟨["fc", "weight"], true, true⟩, ⟨["fc", "bias"], true, true⟩],
     by decide, by decide⟩,
   ⟨[⟨["features", "0", "0", "weight"], false, false⟩,
     ⟨["classifier", "1", "weight"], true, true⟩,
     ⟨["classifier", "1", "bias"], true, true⟩], by decide, by decide⟩,
   ⟨[⟨["features", "0", "0", "weight"], false, false⟩,
     ⟨["classifier", "1", "weight"], true, true⟩,
     ⟨["classifier", "1", "bias"], true, true⟩], by decide, by decide⟩,
   ⟨[⟨["features", "conv0", "weight"], false, false⟩,
     ⟨["classifier", "weight"], true, true⟩,
     ⟨["classifier", "bias"], true, true⟩], by decide, by decide⟩,
   ⟨mobilenetV3Frozen, by decide, by decide, by decide⟩⟩

/-- C1 counterexample: `get_model("MobileNetV3", freeze=True)` leaves the
backbone's hidden `classifier.0` linear layer trainable in addition to the
newly substituted `classifier.3`, so it is not the case that exactly the
new final layer's parameters have `requires_grad=True`. -/
theorem get_model_freeze_mobilenet_counterexample :
    get_model "MobileNetV3" 1 true true = Except.ok mobilenetV3Frozen ∧
    trainableExactlyNewHead mobilenetV3Frozen = false ∧
    (mobilenetV3Frozen.filter fun p => p.requiresGrad && !p.isNewHead) =
      [⟨["classifier", "0", "weight"], true, false⟩,
       ⟨["classifier", "0", "bias"], true, false⟩] :=
  ⟨by decide, by decide, by decide⟩

/-- C1 witness: the amended statement instantiated at `ResNet50` — the
model is built and exactly the new head is trainable. -/
theorem get_model_freeze_trainable_witness :
    ∃ m, get_model "ResNet50" 1 true true = Except.ok m ∧
      trainableExactlyNewHead m = true :=
  get_model_freeze_trainable_amended.2.2.2.1

/-- C3 (confirmed): `get_model` returns a model for each of the 8
enumerated architecture tokens, and for any other token it fails with
`ValueError("Unsupported model architecture: <token>")` — an error whose
message names the offending token — returning no model. -/
theorem get_model_dispatch_total :
    ((∃ m, get_model "ViT" 1 true true = Except.ok m) ∧
      (∃ m, get_model "ViT32" 1 true true = Except.ok m) ∧
      (∃ m, get_model "ResNet101" 1 true true = Except.ok m) ∧
      (∃ m, get_model "ResNet50" 1 true true = Except.ok m) ∧
      (∃ m, get_model "EfficientNetB0" 1 true true = Except.ok m) ∧
      (∃ m, get_model "EfficientNetB4" 1 true true = Except.ok m) ∧
      (∃ m, get_model "MobileNetV3" 1 true true = Except.ok m) ∧
      (∃ m, get_model "DenseNet121" 1 true true = Except.ok m)) ∧
    ∀ name, name ∉ supportedArchitectures →
      get_model name 1 true true =
        Except.error (ModelError.valueError
          ("Unsupported model architecture: " ++ name)) := by
  refine ⟨⟨⟨[⟨["conv_proj", "weight"], false, false⟩,
      ⟨["encoder", "layers", "encoder_layer_0", "mlp", "0", "weight"], false, false⟩,
      ⟨["encoder", "layers", "encoder_layer_0", "mlp", "0", "bias"], false, false⟩,
      ⟨["heads", "head", "weight"], true, true⟩,
      ⟨["heads", "head", "bias"], true, true⟩], by decide⟩,
    ⟨[⟨["conv_proj", "weight"], false, false⟩,
      ⟨["encoder", "layers", "encoder_layer_0", "mlp", "0", "weight"], false, false⟩,
      ⟨["encoder", "layers", "encoder_layer_0", "mlp", "0", "bias"], false, false⟩,
      ⟨["heads", "head", "weight"], true, true⟩,
      ⟨["heads", "head", "bias"], true, true⟩], by decide⟩,
    ⟨[⟨["conv1", "weight"], false, false⟩,
      ⟨["layer1", "0", "conv1", "weight"], false, false⟩,
      ⟨["fc", "weight"], true, true⟩, ⟨["fc", "bias"], true, true⟩], by decide⟩,
    ⟨[⟨["conv1", "weight"], false, false⟩,
      ⟨["layer1", "0", "conv1", "weight"], false, false⟩,
      ⟨["fc", "weight"], true, true⟩, ⟨["fc", "bias"], true, true⟩], by decide⟩,
    ⟨[⟨["features", "0", "0", "weight"], false, false⟩,
      ⟨["classifier", "1", "weight"], true, true⟩,
      ⟨["classifier", "1", "bias"], true, true⟩], by decide⟩,
    ⟨[⟨["features", "0", "0", "weight"], false, false⟩,
      ⟨["classifier", "1", "weight"], true, true⟩,
      ⟨["classifier", "1", "bias"], true, true⟩], by decide⟩,
    ⟨mobilenetV3Frozen, by decide⟩,
    ⟨[⟨["features", "conv0", "weight"], false, false⟩,
      ⟨["classifier", "weight"], true, true⟩,
      ⟨["classifier", "bias"], true, true⟩], by decide⟩⟩, ?_⟩
  intro name hname
  simp only [supportedArchitectures, List.mem_cons, List.not_mem_nil, or_false] at hname
  push_neg at hname
  obtain ⟨h1, h2, h3, h4, h5, h6, h7, h8⟩ := hname
  simp only [get_model, buildBackbone, if_neg h1, if_neg h2, if_neg h3, if_neg h4,
    if_neg h5, if_neg h6, if_neg h7, if_neg h8, ebind_error]

/-- C3 witness: `get_model("Bogus")` fails with the unsupported-architecture
error naming the token `Bogus`. -/
theorem get_model_dispatch_total_witness :
    get_model "Bogus" 1 true true =
      Except.error (ModelError.valueError "Unsupported model architecture: Bogus") :=
  get_model_dispatch_total.2 "Bogus" (by decide)

/-- C10 (confirmed): every supported token's constructed backbone (with the
head already substituted) exposes a final-layer attribute matching the
unfreeze lookup order (`heads.head` for the ViT tokens, `fc` or
`classifier` for the rest), so `get_model(…, freeze=True)` succeeds on all
8 tokens and the cannot-find-classifier-head `AttributeError` branch is
never reached. -/
theorem get_model_head_lookup_total :
    (∃ m, buildBackbone "ViT" 1 true = Except.ok m ∧
      unfreezeHeadFound "ViT" m = true ∧
      ∃ mf, get_model "ViT" 1 true true = Except.ok mf) ∧
    (∃ m, buildBackbone "ViT32" 1 true = Except.ok m ∧
      unfreezeHeadFound "ViT32" m = true ∧
      ∃ mf, get_model "ViT32" 1 true true = Except.ok mf) ∧
    (∃ m, buildBackbone "ResNet101" 1 true = Except.ok m ∧
      unfreezeHeadFound "ResNet101" m = true ∧
      ∃ mf, get_model "ResNet101" 1 true true = Except.ok mf) ∧
    (∃ m, buildBackbone "ResNet50" 1 true = Except.ok m ∧
      unfreezeHeadFound "ResNet50" m = true ∧
      ∃ mf, get_model "ResNet50" 1 true true = Except.ok mf) ∧
    (∃ m, buildBackbone "EfficientNetB0" 1 true = Except.ok m ∧
      unfreezeHeadFound "EfficientNetB0" m = true ∧
      ∃ mf, get_model "EfficientNetB0" 1 true true = Except.ok mf) ∧
    (∃ m, buildBackbone "EfficientNetB4" 1 true = Except.ok m ∧
      unfreezeHeadFound "EfficientNetB4" m = true ∧
      ∃ mf, get_model "EfficientNetB4" 1 true true = Except.ok mf) ∧
    (∃ m, buildBackbone "MobileNetV3" 1 true = Except.ok m ∧
      unfreezeHeadFound "MobileNetV3" m = true ∧
      ∃ mf, get_model "MobileNetV3" 1 true true = Except.ok mf) ∧
    (∃ m, buildBackbone "DenseNet121" 1 true = Except.ok m ∧
      unfreezeHeadFound "DenseNet121" m = true ∧
      ∃ mf, get_model "DenseNet121" 1 true true = Except.ok mf) :=
  ⟨⟨[⟨["conv_proj", "weight"], true, false⟩,
     ⟨["encoder", "layers", "encoder_layer_0", "mlp", "0", "weight"], true, false⟩,
     ⟨["encoder", "layers", "encoder_layer_0", "mlp", "0", "bias"], true, false⟩,
     ⟨["heads", "head", "weight"], true, true⟩,
     ⟨["heads", "head", "bias"], true, true⟩], by decide, by decide,
    [⟨["conv_proj", "weight"], false, false⟩,
     ⟨["encoder", "layers", "encoder_layer_0", "mlp", "0", "weight"], false, false⟩,
     ⟨["encoder", "layers", "encoder_layer_0", "mlp", "0", "bias"], false, false⟩,
     ⟨["heads", "head", "weight"], true, true⟩,
     ⟨["heads", "head", "bias"], true, true⟩], by decide⟩,
   ⟨[⟨["conv_proj", "weight"], true, false⟩,
     ⟨["encoder", "layers", "encoder_layer_0", "mlp", "0", "weight"], true, false⟩,
     ⟨["encoder", "layers", "encoder_layer_0", "mlp", "0", "bias"], true, false⟩,
     ⟨["heads", "head", "weight"], true, true⟩,
     ⟨["heads", "head", "bias"], true, true⟩], by decide, by decide,
    [⟨["conv_proj", "weight"], false, false⟩,
     ⟨["encoder", "layers", "encoder_layer_0", "mlp", "0", "weight"], false, false⟩,
     ⟨["encoder", "layers", "encoder_layer_0", "mlp", "0", "bias"], false, false⟩,
     ⟨["heads", "head", "weight"], true, true⟩,
     ⟨["heads", "head", "bias"], true, true⟩], by decide⟩,
   ⟨[⟨["conv1", "weight"], true, false⟩,
     ⟨["layer1", "0", "conv1", "weight"], true, false⟩,
     ⟨["fc", "weight"], true, true⟩, ⟨["fc", "bias"], true, true⟩],
    by decide, by decide,
    [⟨["conv1", "weight"], false, false⟩,
     ⟨["layer1", "0", "conv1", "weight"], false, false⟩,
     ⟨["fc", "weight"], true, true⟩, ⟨["fc", "bias"], true, true⟩], by decide⟩,
   ⟨[⟨["conv1", "weight"], true, false⟩,
     ⟨["layer1", "0", "conv1", "weight"], true, false⟩,
     ⟨["fc", "weight"], true, true⟩, ⟨["fc", "bias"], true, true⟩],
    by decide, by decide,
    [⟨["conv1", "weight"], false, false⟩,
     ⟨["layer1", "0", "conv1", "weight"], false, false⟩,
     ⟨["fc", "weight"], true, true⟩, ⟨["fc", "bias"], true, true⟩], by decide⟩,
   ⟨[⟨["features", "0", "0", "weight"], true, false⟩,
     ⟨["classifier", "1", "weight"], true, true⟩,
     ⟨["classifier", "1", "bias"], true, true⟩], by decide, by decide,
    [⟨["features", "0", "0", "weight"], false, false⟩,
     ⟨["classifier", "1", "weight"], true, true⟩,
     ⟨["classifier", "1", "bias"], true, true⟩], by decide⟩,
   ⟨[⟨["features", "0", "0", "weight"], true, false⟩,
     ⟨["classifier", "1", "weight"], true, true⟩,
     ⟨["classifier", "1", "bias"], true, true⟩], by decide, by decide,
    [⟨["features", "0", "0", "weight"], false, false⟩,
     ⟨["classifier", "1", "weight"], true, true⟩,
     ⟨["classifier", "1", "bias"], true, true⟩], by decide⟩,
   ⟨[⟨["features", "0", "0", "weight"], true, false⟩,
     ⟨["classifier", "0", "weight"], true, false⟩,
     ⟨["classifier", "0", "bias"], true, false⟩,
     ⟨["classifier", "3", "weight"], true, true⟩,
     ⟨["classifier", "3", "bias"], true, true⟩], by decide, by decide,
    mobilenetV3Frozen, by decide⟩,
   ⟨[⟨["features", "conv0", "weight"], true, false⟩,
     ⟨["classifier", "weight"], true, true⟩,
     ⟨["classifier", "bias"], true, true⟩], by decide, by decide,
    [⟨["features", "conv0", "weight"], false, false⟩,
     ⟨["classifier", "weight"], true, true⟩,
     ⟨["classifier", "bias"], true, true⟩], by decide⟩⟩

/-- C5 (confirmed): every `/predict` request is answered either with status
200 and body `{is_homogenous: <the predicted int>}`, or with status 400 and
body `{detail: <free-text message>}`; the 200 case happens exactly when
decoding produced a NumPy array and both the image save and the prediction
succeeded — every failure, of whatever kind, surfaces as the same uniform
400/detail response. -/
theorem predict_endpoint_response_contract (decodeR : Except String (Option DecodedValue))
    (saveR : Except String Unit) (predictR : Except String Int) :
    (((predict_endpoint decodeR saveR predictR).status = 200 ∧
        ∃ v, predictR = Except.ok v ∧
          (predict_endpoint decodeR saveR predictR).body = RespBody.isHomogenous v) ∨
      ((predict_endpoint decodeR saveR predictR).status = 400 ∧
        ∃ msg, (predict_endpoint decodeR saveR predictR).body = RespBody.detail msg)) ∧
    ((predict_endpoint decodeR saveR predictR).status = 200 ↔
      decodeR = Except.ok (some DecodedValue.ndarray) ∧ saveR = Except.ok () ∧
        ∃ v, predictR = Except.ok v) := by
  cases decodeR with
  | error e => simp [predict_endpoint]
  | ok o =>
    cases o with
    | none => simp [predict_endpoint]
    | some dv =>
      cases dv with
      | other => simp [predict_endpoint]
      | ndarray =>
        cases saveR with
        | error e => simp [predict_endpoint]
        | ok u =>
          cases u
          cases predictR with
          | error e => simp [predict_endpoint]
          | ok v => simp [predict_endpoint]

/-- C7 (amended): the saved TIFF is single-channel with 16-bit values and
the same dimensions as the input; re-reading it yields, at every pixel, the
grayscale-converted source value reduced modulo `2^16` (NumPy's `uint16`
cast) — equal to the original value exactly when that value already lies in
`[0, 65536)`. -/
theorem save_image_roundtrip_amended (img : NpImage) (y x : Nat) :
    (save_image_as_tif img).height = img.height ∧
    (save_image_as_tif img).width = img.width ∧
    (readSavedTif (save_image_as_tif img)).px y x < 65536 ∧
    (readSavedTif (save_image_as_tif img)).px y x = npToUint16 (grayPixel img y x) ∧
    (((readSavedTif (save_image_as_tif img)).px y x : Int) = grayPixel img y x ↔
      0 ≤ grayPixel img y x ∧ grayPixel img y x < 65536) := by
  cases img with
  | gray h w px =>
    refine ⟨rfl, rfl, ?_, rfl, ?_⟩
    · simp only [save_image_as_tif, readSavedTif, npToUint16]
      omega
    · simp only [save_image_as_tif, readSavedTif, npToUint16, grayPixel]
      omega
  | color h w px =>
    refine ⟨rfl, rfl, ?_, rfl, ?_⟩
    · simp only [save_image_as_tif, readSavedTif, npToUint16]
      omega
    · simp only [save_image_as_tif, readSavedTif, npToUint16, grayPixel]
      omega

/-- C7 counterexample: a single-channel image with pixel value 70000 (legal
in an integer NumPy array) is stored as `70000 mod 2^16 = 4464`, so reading
the file back does not return a value numerically equal to the original —
and no grayscale conversion is involved. -/
theorem save_image_roundtrip_counterexample :
    (save_image_as_tif (NpImage.gray 1 1 fun _ _ => 70000)).px 0 0 = 4464 ∧
    ((save_image_as_tif (NpImage.gray 1 1 fun _ _ => 70000)).px 0 0 : Int) ≠ 70000 := by
  constructor
  · rfl
  · decide

/-- C9 (confirmed): `calculate_custom_score` returns exactly 0 whenever the
actual class-0 count or the actual class-1 count is zero, and the division
`(a0*a1)/(n0*n1)` is only evaluated in the other branch, where both factors
are positive and the denominator is provably nonzero. -/
theorem calculate_custom_score_zero_guard (y_true y_pred : List Int) :
    (customScore_n0 y_true = 0 ∨ customScore_n1 y_true = 0 →
      calculate_custom_score y_true y_pred = 0) ∧
    (customScore_n0 y_true ≠ 0 → customScore_n1 y_true ≠ 0 →
      ((customScore_n0 y_true * customScore_n1 y_true : Nat) : ℚ) ≠ 0 ∧
      calculate_custom_score y_true y_pred =
        ((customScore_a0 y_true y_pred * customScore_a1 y_true y_pred : Nat) : ℚ) /
          ((customScore_n0 y_true * customScore_n1 y_true : Nat) : ℚ)) := by
  constructor
  · intro hz
    simp only [calculate_custom_score, if_pos hz]
  · intro h0 h1
    have hz : ¬(customScore_n0 y_true = 0 ∨ customScore_n1 y_true = 0) := by
      intro hcon
      cases hcon with
      | inl h => exact h0 h
      | inr h => exact h1 h
    refine ⟨?_, by simp only [calculate_custom_score, if_neg hz]⟩
    exact_mod_cast Nat.mul_ne_zero h0 h1

/-- C9 witness: `y_true = [0, 0, 0]` has no class-1 samples, so the score
is 0 without the division being evaluated. -/
theorem calculate_custom_score_zero_guard_witness :
    calculate_custom_score [0, 0, 0] [0, 1, 0] = 0 :=
  (calculate_custom_score_zero_guard [0, 0, 0] [0, 1, 0]).1 (Or.inr (by decide))

end DMiAI
